import Mathlib

/-!
# Verification of the `nessclient` alarm state machine

Shallow embedding of `src/nessclient/alarm.py`: an in-memory model of a
security alarm panel's arming posture and sixteen sensor zones, updated by a
stream of parsed events.

The event data types (`ArmingUpdate`, `ZoneUpdate`, `SystemStatusEvent`) live
in the repository's `event` module, which is not part of the given source;
they are modelled from the spec's interface section (§6).

Python side effects are made explicit:
* listener invocations become an emitted `List Notification`;
* a Python exception (IndexError on out-of-range list indexing, TypeError on
  `None - 1`) becomes the `none` result of an `Option`-valued handler.
-/

/-- Arming states, from `class ArmingState(Enum)` in `alarm.py`. -/
inductive ArmingState
  | UNKNOWN
  | DISARMED
  | ARMING
  | EXIT_DELAY
  | ARMED
  | ARMED_MONITOR
  | ENTRY_DELAY
  | TRIGGERED
deriving DecidableEq, Repr

/-- Arming modes, from `class ArmingMode(Enum)` in `alarm.py`. -/
inductive ArmingMode
  | ARMED_AWAY
  | ARMED_HOME
  | ARMED_DAY
  | ARMED_NIGHT
  | ARMED_VACATION
  | ARMED_HIGHEST
deriving DecidableEq, Repr

/-- Modelled from the spec: the arming-status flags carried by an
`ArmingUpdate` event (`ArmingUpdate.ArmingStatus` in the missing `event`
module); the spec names AREA_1_ARMED, AREA_1_FULLY_ARMED and MONITOR_ARMED. -/
inductive ArmingUpdate.ArmingStatus
  | AREA_1_ARMED
  | AREA_1_FULLY_ARMED
  | MONITOR_ARMED
deriving DecidableEq, Repr

/-- Modelled from the spec: the request kind of a `ZoneUpdate` event
(`ZoneUpdate.RequestID` in the missing `event` module); only the
"zone input unsealed report" kind is treated specially by the core. -/
inductive ZoneUpdate.RequestID
  | ZONE_INPUT_UNSEALED
  | OTHER
deriving DecidableEq, Repr

/-- Modelled from the spec: the event types of a `SystemStatusEvent`
(`SystemStatusEvent.EventType` in the missing `event` module). The types the
dispatch table names are listed; `OTHER` stands for every remaining type,
which the handler ignores. -/
inductive SystemStatusEvent.EventType
  | UNSEALED
  | SEALED
  | ALARM
  | ALARM_RESTORE
  | ENTRY_DELAY_START
  | ENTRY_DELAY_END
  | EXIT_DELAY_START
  | EXIT_DELAY_END
  | ARMED_AWAY
  | ARMED_HOME
  | ARMED_DAY
  | ARMED_NIGHT
  | ARMED_VACATION
  | ARMED_HIGHEST
  | DISARMED
  | ARMING_DELAYED
  | OTHER
deriving DecidableEq, Repr

/-- Modelled from the spec: `SystemStatusEvent { type: EventType, zone }`.
The zone is an integer in the Python source (`event.zone`); it is modelled as
`Option Int` so that an absent zone and out-of-range zones — which the claims
quantify over — are representable. -/
structure SystemStatusEvent where
  type : SystemStatusEvent.EventType
  zone : Option Int
deriving DecidableEq, Repr

/-- Modelled from the spec: the sum of event variants fed to `handle_event`.
`ArmingUpdate` carries a set of arming-status flags; `ZoneUpdate` carries a
request kind and a set of included zones (flags ZONE_1 .. ZONE_16, modelled by
their identifiers); `other` stands for any unrecognized variant. -/
inductive BaseEvent
  | armingUpdate (status : Finset ArmingUpdate.ArmingStatus)
  | zoneUpdate (request : ZoneUpdate.RequestID) (included_zones : Finset Nat)
  | systemStatus (event : SystemStatusEvent)
  | other
deriving DecidableEq

/-- `Alarm.Zone`: tri-state triggered flag (`None` = unknown). -/
structure Alarm.Zone where
  triggered : Option Bool
deriving DecidableEq, Repr

/-- The `Alarm` aggregate: configuration flag, arming state, 16 zones and the
optional arming mode. Listeners are not stored: their invocations are
returned as notifications. -/
structure Alarm where
  infer_arming_state : Bool
  arming_state : ArmingState
  zones : List Alarm.Zone
  arming_mode : Option ArmingMode
deriving DecidableEq, Repr

/-- A listener invocation: `_on_state_change(state, mode)` or
`_on_zone_change(zone_id, state)`. The zone id is an `Int` because the Python
code passes `event.zone` through unchecked. -/
inductive Notification
  | stateChange (state : ArmingState) (mode : Option ArmingMode)
  | zoneChange (zone_id : Int) (triggered : Bool)
deriving DecidableEq, Repr

/-- `Alarm.__init__`: state UNKNOWN, 16 unknown zones, no arming mode. -/
def Alarm.init (infer_arming_state : Bool) : Alarm :=
  { infer_arming_state := infer_arming_state
    arming_state := ArmingState.UNKNOWN
    zones := List.replicate 16 ⟨none⟩
    arming_mode := none }

/-- `Alarm.ARM_EVENTS_MAP`: which `SystemStatusEvent` types record an arming
mode (lookup returns `none` for a type that is not a key of the map). -/
def Alarm.ARM_EVENTS_MAP : SystemStatusEvent.EventType → Option ArmingMode
  | SystemStatusEvent.EventType.ARMED_AWAY => some ArmingMode.ARMED_AWAY
  | SystemStatusEvent.EventType.ARMED_HOME => some ArmingMode.ARMED_HOME
  | SystemStatusEvent.EventType.ARMED_DAY => some ArmingMode.ARMED_DAY
  | SystemStatusEvent.EventType.ARMED_NIGHT => some ArmingMode.ARMED_NIGHT
  | SystemStatusEvent.EventType.ARMED_VACATION => some ArmingMode.ARMED_VACATION
  | SystemStatusEvent.EventType.ARMED_HIGHEST => some ArmingMode.ARMED_HIGHEST
  | _ => none

/-- Resolution of a Python list index `i` on a list of length `n`: a
non-negative index must be `< n`, a negative index counts from the end and
must be `≥ -n`; anything else raises IndexError (`none`). -/
def pyIndex (n : Nat) (i : Int) : Option Nat :=
  if 0 ≤ i then
    if i < (n : Int) then some i.toNat else none
  else
    if -(n : Int) ≤ i then some (((n : Int) + i).toNat) else none

/-- `Alarm._update_zone(zone_id, state)`: reads `self.zones[zone_id - 1]`
(Python indexing, so `none` models the IndexError on an out-of-range index),
writes the new value and notifies only when the value changed. -/
def Alarm.update_zone (a : Alarm) (zone_id : Int) (state : Bool) :
    Option (Alarm × List Notification) :=
  match pyIndex a.zones.length (zone_id - 1) with
  | none => none
  | some i =>
    let zone := a.zones.getD i ⟨none⟩
    if zone.triggered ≠ some state then
      some ({ a with zones := a.zones.set i ⟨some state⟩ },
            [Notification.zoneChange zone_id state])
    else
      some (a, [])

/-- `Alarm._update_arming_state(state)`: writes the new state and notifies
(with the currently recorded mode) only when the state changed. -/
def Alarm.update_arming_state (a : Alarm) (state : ArmingState) :
    Alarm × List Notification :=
  if a.arming_state ≠ state then
    ({ a with arming_state := state },
     [Notification.stateChange state a.arming_mode])
  else
    (a, [])

/-- `Alarm._handle_arming_update(update)`: the ordered priority chain over
the status flag set. -/
def Alarm.handle_arming_update (a : Alarm)
    (status : Finset ArmingUpdate.ArmingStatus) : Alarm × List Notification :=
  if status = {ArmingUpdate.ArmingStatus.AREA_1_ARMED} then
    a.update_arming_state ArmingState.EXIT_DELAY
  else if ArmingUpdate.ArmingStatus.MONITOR_ARMED ∈ status then
    a.update_arming_state ArmingState.ARMED_MONITOR
  else if a.arming_state = ArmingState.TRIGGERED then
    a.update_arming_state ArmingState.TRIGGERED
  else if ArmingUpdate.ArmingStatus.AREA_1_ARMED ∈ status ∧
      ArmingUpdate.ArmingStatus.AREA_1_FULLY_ARMED ∈ status then
    a.update_arming_state ArmingState.ARMED
  else if a.infer_arming_state then
    if a.arming_state = ArmingState.UNKNOWN then
      a.update_arming_state ArmingState.DISARMED
    else
      (a, [])
  else
    a.update_arming_state ArmingState.DISARMED

/-- `Alarm._handle_zone_input_update(update)`: every slot `i` (zone id
`i + 1`) is reassessed against the included-zones set. -/
def Alarm.handle_zone_input_update (a : Alarm) (included_zones : Finset Nat) :
    Option (Alarm × List Notification) :=
  (List.range a.zones.length).foldlM
    (fun acc (i : Nat) => do
      let (a', ns) ← acc.1.update_zone (Int.ofNat i + 1)
        (decide ((i + 1) ∈ included_zones))
      pure (a', acc.2 ++ ns))
    (a, [])

/-- `Alarm._handle_system_status_event(event)`: the dispatch table. An
UNSEALED/SEALED event with an absent zone raises (Python `None - 1`),
modelled by `none`. -/
def Alarm.handle_system_status_event (a : Alarm) (event : SystemStatusEvent) :
    Option (Alarm × List Notification) :=
  if event.type = SystemStatusEvent.EventType.UNSEALED then
    match event.zone with
    | none => none
    | some z => a.update_zone z true
  else if event.type = SystemStatusEvent.EventType.SEALED then
    match event.zone with
    | none => none
    | some z => a.update_zone z false
  else if event.type = SystemStatusEvent.EventType.ALARM then
    some (a.update_arming_state ArmingState.TRIGGERED)
  else if event.type = SystemStatusEvent.EventType.ALARM_RESTORE then
    if a.arming_state ≠ ArmingState.DISARMED then
      some (a.update_arming_state ArmingState.ARMED)
    else
      some (a, [])
  else if event.type = SystemStatusEvent.EventType.ENTRY_DELAY_START then
    some (a.update_arming_state ArmingState.ENTRY_DELAY)
  else if event.type = SystemStatusEvent.EventType.ENTRY_DELAY_END then
    some (a, [])
  else if event.type = SystemStatusEvent.EventType.EXIT_DELAY_START then
    some (a.update_arming_state ArmingState.EXIT_DELAY)
  else if event.type = SystemStatusEvent.EventType.EXIT_DELAY_END then
    if a.arming_state = ArmingState.EXIT_DELAY then
      some (a.update_arming_state ArmingState.ARMED)
    else
      some (a, [])
  else
    match Alarm.ARM_EVENTS_MAP event.type with
    | some mode =>
      some (Alarm.update_arming_state { a with arming_mode := some mode }
        ArmingState.ARMING)
    | none =>
      if event.type = SystemStatusEvent.EventType.DISARMED then
        some (Alarm.update_arming_state { a with arming_mode := none }
          ArmingState.DISARMED)
      else
        some (a, [])

/-- `Alarm.handle_event(event)`: the dispatcher. A `ZoneUpdate` whose request
kind is not the zone-input-unsealed report, and any unrecognized variant,
fall through silently. -/
def Alarm.handle_event (a : Alarm) (event : BaseEvent) :
    Option (Alarm × List Notification) :=
  match event with
  | BaseEvent.armingUpdate status => some (a.handle_arming_update status)
  | BaseEvent.zoneUpdate request included_zones =>
    if request = ZoneUpdate.RequestID.ZONE_INPUT_UNSEALED then
      a.handle_zone_input_update included_zones
    else
      some (a, [])
  | BaseEvent.systemStatus event => a.handle_system_status_event event
  | BaseEvent.other => some (a, [])

/-- Sequential handling of a list of events, keeping only the state (a raised
exception aborts the run). -/
def Alarm.runEvents (a : Alarm) (events : List BaseEvent) : Option Alarm :=
  events.foldlM (fun s e => (s.handle_event e).map Prod.fst) a

/-! ## Helper lemmas about the mutators -/

theorem Alarm.update_arming_state_of_eq (a : Alarm) (s : ArmingState)
    (h : a.arming_state = s) : a.update_arming_state s = (a, []) := by
  unfold Alarm.update_arming_state
  simp [h]

theorem Alarm.update_arming_state_of_ne (a : Alarm) (s : ArmingState)
    (h : a.arming_state ≠ s) :
    a.update_arming_state s =
      ({ a with arming_state := s }, [Notification.stateChange s a.arming_mode]) := by
  unfold Alarm.update_arming_state
  simp [h]

@[simp] theorem Alarm.update_arming_state_fst_state (a : Alarm) (s : ArmingState) :
    (a.update_arming_state s).1.arming_state = s := by
  unfold Alarm.update_arming_state
  split_ifs with h
  · rfl
  · exact not_not.mp h

@[simp] theorem Alarm.update_arming_state_fst_mode (a : Alarm) (s : ArmingState) :
    (a.update_arming_state s).1.arming_mode = a.arming_mode := by
  unfold Alarm.update_arming_state
  split_ifs <;> rfl

@[simp] theorem Alarm.update_arming_state_fst_zones (a : Alarm) (s : ArmingState) :
    (a.update_arming_state s).1.zones = a.zones := by
  unfold Alarm.update_arming_state
  split_ifs <;> rfl

@[simp] theorem Alarm.update_arming_state_fst_infer (a : Alarm) (s : ArmingState) :
    (a.update_arming_state s).1.infer_arming_state = a.infer_arming_state := by
  unfold Alarm.update_arming_state
  split_ifs <;> rfl

/-! ## C1: ordered priority rules of the arming-update handler -/

/-- C1: for every ArmingUpdate event the handler applies ordered priority
rules, first match wins: (1) status exactly {AREA_1_ARMED} gives EXIT_DELAY;
(2) else MONITOR_ARMED in status gives ARMED_MONITOR; (3) else a TRIGGERED
state stays TRIGGERED; (4) else AREA_1_ARMED together with AREA_1_FULLY_ARMED
gives ARMED. In particular MONITOR_ARMED with both area flags resolves to
ARMED_MONITOR. -/
theorem arming_update_priority_rules (a : Alarm)
    (status : Finset ArmingUpdate.ArmingStatus) :
    (status = {ArmingUpdate.ArmingStatus.AREA_1_ARMED} →
      (a.handle_arming_update status).1.arming_state = ArmingState.EXIT_DELAY) ∧
    (status ≠ {ArmingUpdate.ArmingStatus.AREA_1_ARMED} →
      ArmingUpdate.ArmingStatus.MONITOR_ARMED ∈ status →
      (a.handle_arming_update status).1.arming_state = ArmingState.ARMED_MONITOR) ∧
    (status ≠ {ArmingUpdate.ArmingStatus.AREA_1_ARMED} →
      ArmingUpdate.ArmingStatus.MONITOR_ARMED ∉ status →
      a.arming_state = ArmingState.TRIGGERED →
      (a.handle_arming_update status).1.arming_state = ArmingState.TRIGGERED) ∧
    (status ≠ {ArmingUpdate.ArmingStatus.AREA_1_ARMED} →
      ArmingUpdate.ArmingStatus.MONITOR_ARMED ∉ status →
      a.arming_state ≠ ArmingState.TRIGGERED →
      ArmingUpdate.ArmingStatus.AREA_1_ARMED ∈ status →
      ArmingUpdate.ArmingStatus.AREA_1_FULLY_ARMED ∈ status →
      (a.handle_arming_update status).1.arming_state = ArmingState.ARMED) ∧
    (ArmingUpdate.ArmingStatus.MONITOR_ARMED ∈ status →
      ArmingUpdate.ArmingStatus.AREA_1_ARMED ∈ status →
      ArmingUpdate.ArmingStatus.AREA_1_FULLY_ARMED ∈ status →
      (a.handle_arming_update status).1.arming_state = ArmingState.ARMED_MONITOR) := by
  refine ⟨?_, ?_, ?_, ?_, ?_⟩
  · intro h1
    simp [Alarm.handle_arming_update, h1]
  · intro h1 h2
    simp [Alarm.handle_arming_update, h1, h2]
  · intro h1 h2 h3
    simp [Alarm.handle_arming_update, h1, h2, h3]
  · intro h1 h2 h3 h4 h5
    simp [Alarm.handle_arming_update, h1, h2, h3, h4, h5]
  · intro h2 h4 h5
    have h1 : status ≠ {ArmingUpdate.ArmingStatus.AREA_1_ARMED} := by
      rintro rfl
      simp [Finset.mem_singleton] at h2
    simp [Alarm.handle_arming_update, h1, h2]

/-- Witness for C1: each of the four priority rules fired at a concrete
input, including the MONITOR_ARMED-beats-area-flags case. -/
theorem arming_update_priority_rules_witness :
    ((Alarm.init false).handle_arming_update
      {ArmingUpdate.ArmingStatus.AREA_1_ARMED}).1.arming_state =
      ArmingState.EXIT_DELAY ∧
    ((Alarm.init false).handle_arming_update
      {ArmingUpdate.ArmingStatus.MONITOR_ARMED,
       ArmingUpdate.ArmingStatus.AREA_1_ARMED,
       ArmingUpdate.ArmingStatus.AREA_1_FULLY_ARMED}).1.arming_state =
      ArmingState.ARMED_MONITOR ∧
    (({ Alarm.init false with arming_state := ArmingState.TRIGGERED } : Alarm).handle_arming_update
      (∅ : Finset ArmingUpdate.ArmingStatus)).1.arming_state =
      ArmingState.TRIGGERED ∧
    ((Alarm.init false).handle_arming_update
      {ArmingUpdate.ArmingStatus.AREA_1_ARMED,
       ArmingUpdate.ArmingStatus.AREA_1_FULLY_ARMED}).1.arming_state =
      ArmingState.ARMED :=
  ⟨(arming_update_priority_rules _ _).1 rfl,
   (arming_update_priority_rules _ _).2.2.2.2 (by decide) (by decide) (by decide),
   (arming_update_priority_rules _ _).2.2.1 (by decide) (by decide) rfl,
   (arming_update_priority_rules _ _).2.2.2.1 (by decide) (by decide) (by decide)
     (by decide) (by decide)⟩

/-! ## C2: the fallback rule of the arming-update handler -/

/-- C2: when none of priority rules 1-4 matches, the fallback applies: with
`infer_arming_state` enabled the state becomes DISARMED only from UNKNOWN and
is otherwise left untouched (no notification either); with the flag disabled
the state always becomes DISARMED. -/
theorem arming_update_fallback (a : Alarm)
    (status : Finset ArmingUpdate.ArmingStatus)
    (h1 : status ≠ {ArmingUpdate.ArmingStatus.AREA_1_ARMED})
    (h2 : ArmingUpdate.ArmingStatus.MONITOR_ARMED ∉ status)
    (h3 : a.arming_state ≠ ArmingState.TRIGGERED)
    (h4 : ¬(ArmingUpdate.ArmingStatus.AREA_1_ARMED ∈ status ∧
      ArmingUpdate.ArmingStatus.AREA_1_FULLY_ARMED ∈ status)) :
    (a.infer_arming_state = true →
      (a.arming_state = ArmingState.UNKNOWN →
        (a.handle_arming_update status).1.arming_state = ArmingState.DISARMED) ∧
      (a.arming_state ≠ ArmingState.UNKNOWN →
        a.handle_arming_update status = (a, []))) ∧
    (a.infer_arming_state = false →
      (a.handle_arming_update status).1.arming_state = ArmingState.DISARMED) := by
  constructor
  · intro hinf
    constructor
    · intro hu
      simp [Alarm.handle_arming_update, h1, h2, h3, h4, hinf, hu]
    · intro hu
      simp [Alarm.handle_arming_update, h1, h2, h3, h4, hinf, hu]
  · intro hinf
    simp [Alarm.handle_arming_update, h1, h2, h3, h4, hinf]

/-- Witness for C2: with inference on, an empty-status update from ARMED is a
no-op while the same update from UNKNOWN resolves to DISARMED; with inference
off it resolves to DISARMED from ARMED as well. -/
theorem arming_update_fallback_witness :
    (({ Alarm.init true with arming_state := ArmingState.ARMED } : Alarm).handle_arming_update
      (∅ : Finset ArmingUpdate.ArmingStatus) =
      ({ Alarm.init true with arming_state := ArmingState.ARMED }, [])) ∧
    ((Alarm.init true).handle_arming_update
      (∅ : Finset ArmingUpdate.ArmingStatus)).1.arming_state =
      ArmingState.DISARMED ∧
    (({ Alarm.init false with arming_state := ArmingState.ARMED } : Alarm).handle_arming_update
      (∅ : Finset ArmingUpdate.ArmingStatus)).1.arming_state =
      ArmingState.DISARMED :=
  ⟨((arming_update_fallback _ _ (by decide) (by decide) (by decide)
      (by decide)).1 rfl).2 (by decide),
   ((arming_update_fallback _ _ (by decide) (by decide) (by decide)
      (by decide)).1 rfl).1 rfl,
   (arming_update_fallback _ _ (by decide) (by decide) (by decide)
      (by decide)).2 rfl⟩

/-! ## The zone-input handler, characterized

`zoneTarget`, `zonesAfter` and `notifsAfter` follow the spec's words
(§4.3): every slot is reassessed against the included set, and a
notification is emitted exactly where the stored value differed. The fold of
the source handler is then proved equal to them. -/

/-- Spec §4.3: the value slot `j` (zone id `j + 1`) must end up with. -/
def zoneTarget (included_zones : Finset Nat) (j : Nat) : Alarm.Zone :=
  ⟨some (decide ((j + 1) ∈ included_zones))⟩

/-- Spec §4.3: the zones after the first `n` slots have been reassessed. -/
def zonesAfter (a : Alarm) (included_zones : Finset Nat) (n : Nat) :
    List Alarm.Zone :=
  (List.range a.zones.length).map (fun j =>
    if j < n then zoneTarget included_zones j else a.zones.getD j ⟨none⟩)

/-- Spec §4.3: the notifications emitted for the first `n` slots — exactly
those whose stored value differed from the target. -/
def notifsAfter (a : Alarm) (included_zones : Finset Nat) (n : Nat) :
    List Notification :=
  (List.range n).filterMap (fun j =>
    if (a.zones.getD j ⟨none⟩).triggered = some (decide ((j + 1) ∈ included_zones))
    then none
    else some (Notification.zoneChange (Int.ofNat j + 1)
      (decide ((j + 1) ∈ included_zones))))

theorem pyIndex_ofNat (n i : Nat) (hi : i < n) :
    pyIndex n (Int.ofNat i) = some i := by
  unfold pyIndex
  rw [Int.ofNat_eq_natCast]
  have h0 : (0 : Int) ≤ (i : Int) := Int.natCast_nonneg i
  have h1 : (i : Int) < (n : Int) := by exact_mod_cast hi
  simp [h0, h1]

/-- `_update_zone` at an in-range slot `i + 1`, as an explicit case split on
whether the stored value already equals the new one. -/
theorem Alarm.update_zone_spec (a : Alarm) (i : Nat) (v : Bool)
    (hi : i < a.zones.length) :
    a.update_zone (Int.ofNat i + 1) v =
      if (a.zones.getD i ⟨none⟩).triggered = some v then some (a, [])
      else some ({ a with zones := a.zones.set i ⟨some v⟩ },
                 [Notification.zoneChange (Int.ofNat i + 1) v]) := by
  unfold Alarm.update_zone
  rw [Int.add_sub_cancel (Int.ofNat i) 1, pyIndex_ofNat a.zones.length i hi]
  by_cases h : (a.zones.getD i ⟨none⟩).triggered = some v <;> simp [h]

theorem zonesAfter_length (a : Alarm) (inc : Finset Nat) (n : Nat) :
    (zonesAfter a inc n).length = a.zones.length := by
  unfold zonesAfter
  simp

theorem zonesAfter_getD (a : Alarm) (inc : Finset Nat) (n j : Nat)
    (hj : j < a.zones.length) :
    (zonesAfter a inc n).getD j ⟨none⟩ =
      if j < n then zoneTarget inc j else a.zones.getD j ⟨none⟩ := by
  unfold zonesAfter
  have hj' : j < ((List.range a.zones.length).map (fun j =>
      if j < n then zoneTarget inc j else a.zones.getD j ⟨none⟩)).length := by
    simpa using hj
  rw [List.getD_eq_getElem _ _ hj', List.getElem_map, List.getElem_range]

theorem zonesAfter_zero (a : Alarm) (inc : Finset Nat) :
    zonesAfter a inc 0 = a.zones := by
  unfold zonesAfter
  apply List.ext_getElem
  · simp
  · intro k h1 h2
    rw [List.getElem_map, List.getElem_range]
    simp only [Nat.not_lt_zero, if_false]
    rw [List.getD_eq_getElem a.zones _ h2]

theorem zonesAfter_succ_of_eq (a : Alarm) (inc : Finset Nat) (n : Nat)
    (h : a.zones.getD n ⟨none⟩ = zoneTarget inc n) :
    zonesAfter a inc (n + 1) = zonesAfter a inc n := by
  unfold zonesAfter
  apply List.map_congr_left
  intro j _
  by_cases hjn1 : j < n + 1
  · by_cases hjn : j < n
    · rw [if_pos hjn1, if_pos hjn]
    · have hje : j = n := by omega
      subst hje
      rw [if_pos hjn1, if_neg hjn, h]
  · have hjn : ¬ j < n := by omega
    rw [if_neg hjn1, if_neg hjn]

theorem zonesAfter_set (a : Alarm) (inc : Finset Nat) (n : Nat) :
    (zonesAfter a inc n).set n ⟨some (decide ((n + 1) ∈ inc))⟩ =
      zonesAfter a inc (n + 1) := by
  apply List.ext_getElem
  · simp [zonesAfter]
  · intro k h1 h2
    rw [List.getElem_set]
    by_cases hke : n = k
    · subst hke
      rw [if_pos rfl]
      unfold zonesAfter
      rw [List.getElem_map, List.getElem_range, if_pos (Nat.lt_succ_self n)]
      rfl
    · rw [if_neg hke]
      unfold zonesAfter
      rw [List.getElem_map, List.getElem_range, List.getElem_map, List.getElem_range]
      by_cases hkn : k < n
      · rw [if_pos hkn, if_pos (Nat.lt_succ_of_lt hkn)]
      · have hkn1 : ¬ k < n + 1 := by omega
        rw [if_neg hkn, if_neg hkn1]

theorem notifsAfter_zero (a : Alarm) (inc : Finset Nat) :
    notifsAfter a inc 0 = [] := by
  unfold notifsAfter
  simp

theorem notifsAfter_succ (a : Alarm) (inc : Finset Nat) (n : Nat) :
    notifsAfter a inc (n + 1) = notifsAfter a inc n ++
      (if (a.zones.getD n ⟨none⟩).triggered = some (decide ((n + 1) ∈ inc))
       then []
       else [Notification.zoneChange (Int.ofNat n + 1)
         (decide ((n + 1) ∈ inc))]) := by
  unfold notifsAfter
  rw [List.range_succ, List.filterMap_append]
  congr 1
  by_cases h : (a.zones.getD n ⟨none⟩).triggered = some (decide ((n + 1) ∈ inc))
  · rw [if_pos h, List.filterMap_cons, if_pos h, List.filterMap_nil]
  · rw [if_neg h, List.filterMap_cons, if_neg h, List.filterMap_nil]

/-- The fold inside `_handle_zone_input_update`, after `n` slots. -/
theorem zone_fold_spec (a : Alarm) (inc : Finset Nat) (ns0 : List Notification) :
    ∀ n : Nat, n ≤ a.zones.length →
    (List.range n).foldlM
      (fun acc (i : Nat) => do
        let (a', ns) ← acc.1.update_zone (Int.ofNat i + 1)
          (decide ((i + 1) ∈ inc))
        pure (a', acc.2 ++ ns))
      ((a, ns0) : Alarm × List Notification) =
      some ({ a with zones := zonesAfter a inc n }, ns0 ++ notifsAfter a inc n) := by
  intro n
  induction n with
  | zero =>
    intro _
    simp [zonesAfter_zero, notifsAfter_zero]
  | succ n ih =>
    intro hn
    have hn' : n ≤ a.zones.length := Nat.le_of_succ_le hn
    have hnlt : n < a.zones.length := hn
    rw [List.range_succ, List.foldlM_append, ih hn']
    have hgetD : (zonesAfter a inc n).getD n ⟨none⟩ = a.zones.getD n ⟨none⟩ := by
      rw [zonesAfter_getD a inc n n hnlt]
      simp
    have hlen : n < ({ a with zones := zonesAfter a inc n } : Alarm).zones.length := by
      simpa [zonesAfter_length] using hnlt
    simp only [Option.bind_eq_bind, Option.some_bind, List.foldlM_cons, List.foldlM_nil]
    rw [Alarm.update_zone_spec _ n _ hlen]
    have hsn : ({ a with zones := zonesAfter a inc n } : Alarm).zones =
        zonesAfter a inc n := rfl
    rw [hsn]
    split_ifs with hcond
    · have h : (a.zones.getD n ⟨none⟩).triggered = some (decide ((n + 1) ∈ inc)) := by
        rw [← hgetD]
        exact hcond
      have hz : a.zones.getD n ⟨none⟩ = zoneTarget inc n := by
        show a.zones.getD n ⟨none⟩ = (⟨some (decide ((n + 1) ∈ inc))⟩ : Alarm.Zone)
        have ht := h
        cases hmk : a.zones.getD n ⟨none⟩ with
        | mk t =>
          rw [hmk] at ht
          have ht2 : t = some (decide ((n + 1) ∈ inc)) := ht
          rw [ht2]
      simp only [Option.bind_eq_bind, Option.some_bind]
      rw [zonesAfter_succ_of_eq a inc n hz, notifsAfter_succ, if_pos h]
      simp
    · have h : ¬ (a.zones.getD n ⟨none⟩).triggered = some (decide ((n + 1) ∈ inc)) := by
        rw [← hgetD]
        exact hcond
      simp only [Option.bind_eq_bind, Option.some_bind]
      rw [zonesAfter_set a inc n, notifsAfter_succ, if_neg h]
      simp

/-- `_handle_zone_input_update`, characterized in one equation. -/
theorem Alarm.handle_zone_input_update_spec (a : Alarm) (inc : Finset Nat) :
    a.handle_zone_input_update inc =
      some ({ a with zones := zonesAfter a inc a.zones.length },
            notifsAfter a inc a.zones.length) := by
  unfold Alarm.handle_zone_input_update
  simpa using zone_fold_spec a inc [] a.zones.length le_rfl

/-! ## C4: zone-input updates reassess every zone -/

/-- Spec §4.3: the 16 zones a zone-input update forces, slot `j` (zone id
`j + 1`) reading triggered = true iff its id is in the included set. -/
def zonesForced (inc : Finset Nat) : List Alarm.Zone :=
  (List.range 16).map (fun j => ⟨some (decide ((j + 1) ∈ inc))⟩)

/-- Spec §4.3: one zone-change notification per slot whose stored value
differs from the forced one, in slot order. -/
def zoneDiffNotifs (a : Alarm) (inc : Finset Nat) : List Notification :=
  (List.range 16).filterMap (fun j =>
    if (a.zones.getD j ⟨none⟩).triggered = some (decide ((j + 1) ∈ inc))
    then none
    else some (Notification.zoneChange (Int.ofNat j + 1)
      (decide ((j + 1) ∈ inc))))

/-- C4: a ZoneUpdate of request kind "zone input unsealed report" sets, for
each of the 16 slots, triggered = true iff the zone id `j + 1` is in the
included set (false otherwise, whatever was stored), and emits a zone-change
notification exactly for the slots whose resulting value differs from the
stored one. -/
theorem zone_input_update_reassesses_all_zones (a : Alarm) (inc : Finset Nat)
    (h16 : a.zones.length = 16) :
    (a.handle_event
        (BaseEvent.zoneUpdate ZoneUpdate.RequestID.ZONE_INPUT_UNSEALED inc) =
      some ({ a with zones := zonesForced inc }, zoneDiffNotifs a inc)) ∧
    ∀ j : Nat, j < 16 →
      ((a.handle_event
          (BaseEvent.zoneUpdate ZoneUpdate.RequestID.ZONE_INPUT_UNSEALED inc)).map
        (fun r => (r.1.zones.getD j ⟨none⟩).triggered) = some (some true) ↔
        (j + 1) ∈ inc) := by
  have hz16 : zonesAfter a inc 16 = zonesForced inc := by
    unfold zonesAfter zonesForced
    rw [h16]
    apply List.map_congr_left
    intro j hj
    rw [List.mem_range] at hj
    rw [if_pos hj]
    rfl
  constructor
  · show a.handle_zone_input_update inc = _
    rw [Alarm.handle_zone_input_update_spec, h16, hz16]
    rfl
  · intro j hj
    have hjlen : j < a.zones.length := by omega
    show (a.handle_zone_input_update inc).map
        (fun r => (r.1.zones.getD j ⟨none⟩).triggered) = some (some true) ↔
      (j + 1) ∈ inc
    rw [Alarm.handle_zone_input_update_spec]
    simp only [Option.map_some']
    rw [zonesAfter_getD a inc a.zones.length j hjlen, if_pos hjlen]
    unfold zoneTarget
    simp

/-- Witness for C4: the spec's example, zone update {3, 7} applied to a fresh
instance. -/
theorem zone_input_update_reassesses_all_zones_witness :
    (Alarm.init false).handle_event
        (BaseEvent.zoneUpdate ZoneUpdate.RequestID.ZONE_INPUT_UNSEALED
          ({3, 7} : Finset Nat)) =
      some ({ Alarm.init false with zones := zonesForced ({3, 7} : Finset Nat) },
        zoneDiffNotifs (Alarm.init false) ({3, 7} : Finset Nat)) :=
  (zone_input_update_reassesses_all_zones (Alarm.init false)
    ({3, 7} : Finset Nat) rfl).1

/-! ## C5: the normal arming sequence -/

/-- C5: from DISARMED, the system-status sequence ARMED_AWAY,
EXIT_DELAY_START, EXIT_DELAY_END walks through ARMING (mode ARMED_AWAY),
EXIT_DELAY and ARMED; and an EXIT_DELAY_END handled while the state is not
EXIT_DELAY causes no transition at all. -/
theorem arming_sequence_from_disarmed (a : Alarm)
    (hd : a.arming_state = ArmingState.DISARMED) :
    ((a.runEvents
        [BaseEvent.systemStatus ⟨SystemStatusEvent.EventType.ARMED_AWAY, none⟩]).map
      (fun s => (s.arming_state, s.arming_mode)) =
      some (ArmingState.ARMING, some ArmingMode.ARMED_AWAY)) ∧
    ((a.runEvents
        [BaseEvent.systemStatus ⟨SystemStatusEvent.EventType.ARMED_AWAY, none⟩,
         BaseEvent.systemStatus ⟨SystemStatusEvent.EventType.EXIT_DELAY_START, none⟩]).map
      (fun s => (s.arming_state, s.arming_mode)) =
      some (ArmingState.EXIT_DELAY, some ArmingMode.ARMED_AWAY)) ∧
    ((a.runEvents
        [BaseEvent.systemStatus ⟨SystemStatusEvent.EventType.ARMED_AWAY, none⟩,
         BaseEvent.systemStatus ⟨SystemStatusEvent.EventType.EXIT_DELAY_START, none⟩,
         BaseEvent.systemStatus ⟨SystemStatusEvent.EventType.EXIT_DELAY_END, none⟩]).map
      (fun s => (s.arming_state, s.arming_mode)) =
      some (ArmingState.ARMED, some ArmingMode.ARMED_AWAY)) ∧
    (∀ b : Alarm, b.arming_state ≠ ArmingState.EXIT_DELAY →
      b.handle_event
        (BaseEvent.systemStatus ⟨SystemStatusEvent.EventType.EXIT_DELAY_END, none⟩) =
        some (b, [])) := by
  refine ⟨?_, ?_, ?_, ?_⟩
  · simp [Alarm.runEvents, Alarm.handle_event, Alarm.handle_system_status_event,
      Alarm.ARM_EVENTS_MAP, Alarm.update_arming_state, hd]
  · simp [Alarm.runEvents, Alarm.handle_event, Alarm.handle_system_status_event,
      Alarm.ARM_EVENTS_MAP, Alarm.update_arming_state, hd]
  · simp [Alarm.runEvents, Alarm.handle_event, Alarm.handle_system_status_event,
      Alarm.ARM_EVENTS_MAP, Alarm.update_arming_state, hd]
  · intro b hb
    simp [Alarm.handle_event, Alarm.handle_system_status_event, hb]

/-- Witness for C5: the sequence applied to a freshly disarmed instance, and
the no-op EXIT_DELAY_END on the same DISARMED instance. -/
theorem arming_sequence_from_disarmed_witness :
    ((({ Alarm.init false with arming_state := ArmingState.DISARMED } : Alarm).runEvents
        [BaseEvent.systemStatus ⟨SystemStatusEvent.EventType.ARMED_AWAY, none⟩,
         BaseEvent.systemStatus ⟨SystemStatusEvent.EventType.EXIT_DELAY_START, none⟩,
         BaseEvent.systemStatus ⟨SystemStatusEvent.EventType.EXIT_DELAY_END, none⟩]).map
      (fun s => (s.arming_state, s.arming_mode)) =
      some (ArmingState.ARMED, some ArmingMode.ARMED_AWAY)) ∧
    (({ Alarm.init false with arming_state := ArmingState.DISARMED } : Alarm).handle_event
        (BaseEvent.systemStatus ⟨SystemStatusEvent.EventType.EXIT_DELAY_END, none⟩) =
      some ({ Alarm.init false with arming_state := ArmingState.DISARMED }, [])) :=
  ⟨(arming_sequence_from_disarmed
      ({ Alarm.init false with arming_state := ArmingState.DISARMED } : Alarm)
      rfl).2.2.1,
   (arming_sequence_from_disarmed
      ({ Alarm.init false with arming_state := ArmingState.DISARMED } : Alarm)
      rfl).2.2.2 _ (by decide)⟩

/-! ## C6: ALARM, the TRIGGERED latch, and ALARM_RESTORE -/

/-- C6: an ALARM system-status event always sets the state to TRIGGERED;
while TRIGGERED, an ArmingUpdate with status {AREA_1_ARMED,
AREA_1_FULLY_ARMED} leaves it TRIGGERED; and ALARM_RESTORE results in ARMED
iff the current state is not DISARMED, never touching the recorded arming
mode. -/
theorem alarm_triggered_and_restore (a : Alarm) (z : Option Int) :
    ((a.handle_event
        (BaseEvent.systemStatus ⟨SystemStatusEvent.EventType.ALARM, z⟩)).map
      (fun r => r.1.arming_state) = some ArmingState.TRIGGERED) ∧
    (a.arming_state = ArmingState.TRIGGERED →
      (a.handle_event
          (BaseEvent.armingUpdate
            {ArmingUpdate.ArmingStatus.AREA_1_ARMED,
             ArmingUpdate.ArmingStatus.AREA_1_FULLY_ARMED})).map
        (fun r => r.1.arming_state) = some ArmingState.TRIGGERED) ∧
    (((a.handle_event
        (BaseEvent.systemStatus ⟨SystemStatusEvent.EventType.ALARM_RESTORE, z⟩)).map
      (fun r => r.1.arming_state) = some ArmingState.ARMED) ↔
      a.arming_state ≠ ArmingState.DISARMED) ∧
    ((a.handle_event
        (BaseEvent.systemStatus ⟨SystemStatusEvent.EventType.ALARM_RESTORE, z⟩)).map
      (fun r => r.1.arming_mode) = some a.arming_mode) := by
  have hne : ({ArmingUpdate.ArmingStatus.AREA_1_ARMED,
      ArmingUpdate.ArmingStatus.AREA_1_FULLY_ARMED} : Finset ArmingUpdate.ArmingStatus) ≠
      {ArmingUpdate.ArmingStatus.AREA_1_ARMED} := by decide
  have hnm : ArmingUpdate.ArmingStatus.MONITOR_ARMED ∉
      ({ArmingUpdate.ArmingStatus.AREA_1_ARMED,
        ArmingUpdate.ArmingStatus.AREA_1_FULLY_ARMED} :
        Finset ArmingUpdate.ArmingStatus) := by decide
  refine ⟨?_, ?_, ?_, ?_⟩
  · simp [Alarm.handle_event, Alarm.handle_system_status_event]
  · intro ht
    simp [Alarm.handle_event, Alarm.handle_arming_update, hne, hnm, ht]
  · by_cases hd : a.arming_state = ArmingState.DISARMED
    · simp [Alarm.handle_event, Alarm.handle_system_status_event, hd]
    · simp [Alarm.handle_event, Alarm.handle_system_status_event, hd]
  · by_cases hd : a.arming_state = ArmingState.DISARMED
    · simp [Alarm.handle_event, Alarm.handle_system_status_event, hd]
    · simp [Alarm.handle_event, Alarm.handle_system_status_event, hd]

/-- Witness for C6: the spec's scenario on a concrete ARMED instance with a
recorded mode — ALARM triggers, the arming update keeps TRIGGERED,
ALARM_RESTORE re-arms and keeps the stale mode; and from DISARMED,
ALARM_RESTORE does not produce ARMED. -/
theorem alarm_triggered_and_restore_witness :
    ((({ Alarm.init false with
          arming_state := ArmingState.ARMED
          arming_mode := some ArmingMode.ARMED_AWAY } : Alarm).handle_event
        (BaseEvent.systemStatus ⟨SystemStatusEvent.EventType.ALARM, none⟩)).map
      (fun r => r.1.arming_state) = some ArmingState.TRIGGERED) ∧
    ((({ Alarm.init false with
          arming_state := ArmingState.TRIGGERED
          arming_mode := some ArmingMode.ARMED_AWAY } : Alarm).handle_event
        (BaseEvent.systemStatus ⟨SystemStatusEvent.EventType.ALARM_RESTORE, none⟩)).map
      (fun r => r.1.arming_state) = some ArmingState.ARMED) ∧
    ((({ Alarm.init false with
          arming_state := ArmingState.TRIGGERED
          arming_mode := some ArmingMode.ARMED_AWAY } : Alarm).handle_event
        (BaseEvent.systemStatus ⟨SystemStatusEvent.EventType.ALARM_RESTORE, none⟩)).map
      (fun r => r.1.arming_mode) = some (some ArmingMode.ARMED_AWAY)) ∧
    ((({ Alarm.init false with
          arming_state := ArmingState.TRIGGERED
          arming_mode := some ArmingMode.ARMED_AWAY } : Alarm).handle_event
        (BaseEvent.armingUpdate
          {ArmingUpdate.ArmingStatus.AREA_1_ARMED,
           ArmingUpdate.ArmingStatus.AREA_1_FULLY_ARMED})).map
      (fun r => r.1.arming_state) = some ArmingState.TRIGGERED) ∧
    ¬ ((({ Alarm.init false with arming_state := ArmingState.DISARMED } : Alarm).handle_event
        (BaseEvent.systemStatus ⟨SystemStatusEvent.EventType.ALARM_RESTORE, none⟩)).map
      (fun r => r.1.arming_state) = some ArmingState.ARMED) :=
  ⟨(alarm_triggered_and_restore
      ({ Alarm.init false with
        arming_state := ArmingState.ARMED
        arming_mode := some ArmingMode.ARMED_AWAY } : Alarm) none).1,
   (alarm_triggered_and_restore
      ({ Alarm.init false with
        arming_state := ArmingState.TRIGGERED
        arming_mode := some ArmingMode.ARMED_AWAY } : Alarm) none).2.2.1.mpr
      (by decide),
   (alarm_triggered_and_restore
      ({ Alarm.init false with
        arming_state := ArmingState.TRIGGERED
        arming_mode := some ArmingMode.ARMED_AWAY } : Alarm) none).2.2.2,
   (alarm_triggered_and_restore
      ({ Alarm.init false with
        arming_state := ArmingState.TRIGGERED
        arming_mode := some ArmingMode.ARMED_AWAY } : Alarm) none).2.1 rfl,
   fun hcon =>
     absurd ((alarm_triggered_and_restore
       ({ Alarm.init false with arming_state := ArmingState.DISARMED } : Alarm)
       none).2.2.1.mp hcon) (by decide)⟩

/-! ## C9: zone 0 wraps to slot 16 via Python negative indexing -/

/-- C9: an UNSEALED or SEALED system-status event with zone = 0 is not
ignored: `zones[0 - 1]` resolves, by Python negative indexing, to slot 16
(index 15), which is read and written, and on a value change the zone-change
listener is invoked with zone id 0. -/
theorem zone_zero_wraps_to_slot_16 (a : Alarm) (h16 : a.zones.length = 16) :
    (a.handle_event
        (BaseEvent.systemStatus ⟨SystemStatusEvent.EventType.UNSEALED, some 0⟩) =
      if (a.zones.getD 15 ⟨none⟩).triggered = some true
      then some (a, [])
      else some ({ a with zones := a.zones.set 15 ⟨some true⟩ },
        [Notification.zoneChange 0 true])) ∧
    (a.handle_event
        (BaseEvent.systemStatus ⟨SystemStatusEvent.EventType.SEALED, some 0⟩) =
      if (a.zones.getD 15 ⟨none⟩).triggered = some false
      then some (a, [])
      else some ({ a with zones := a.zones.set 15 ⟨some false⟩ },
        [Notification.zoneChange 0 false])) := by
  constructor
  · show a.update_zone 0 true = _
    unfold Alarm.update_zone
    rw [h16]
    rw [show pyIndex 16 ((0 : Int) - 1) = some 15 from rfl]
    by_cases h : (a.zones.getD 15 ⟨none⟩).triggered = some true <;> simp [h]
  · show a.update_zone 0 false = _
    unfold Alarm.update_zone
    rw [h16]
    rw [show pyIndex 16 ((0 : Int) - 1) = some 15 from rfl]
    by_cases h : (a.zones.getD 15 ⟨none⟩).triggered = some false <;> simp [h]

/-- Witness for C9: on a fresh instance, UNSEALED zone 0 writes slot 16 and
notifies the listener with zone id 0. -/
theorem zone_zero_wraps_to_slot_16_witness :
    (Alarm.init false).handle_event
        (BaseEvent.systemStatus ⟨SystemStatusEvent.EventType.UNSEALED, some 0⟩) =
      if ((Alarm.init false).zones.getD 15 ⟨none⟩).triggered = some true
      then some (Alarm.init false, [])
      else some ({ Alarm.init false with
          zones := (Alarm.init false).zones.set 15 ⟨some true⟩ },
        [Notification.zoneChange 0 true]) :=
  (zone_zero_wraps_to_slot_16 (Alarm.init false) rfl).1

/-! ## C10: a mode-only change is not notified -/

/-- C10: an ARMED_x system-status event handled while the state is already
ARMING overwrites the recorded arming mode with the new mode but emits no
state-change notification, because notification is keyed solely on the
arming-state value changing. -/
theorem arming_mode_overwrite_not_notified (a : Alarm)
    (t : SystemStatusEvent.EventType) (m : ArmingMode) (z : Option Int)
    (hm : Alarm.ARM_EVENTS_MAP t = some m)
    (hs : a.arming_state = ArmingState.ARMING) :
    a.handle_event (BaseEvent.systemStatus ⟨t, z⟩) =
      some ({ a with arming_mode := some m }, []) := by
  cases t <;>
    simp_all [Alarm.handle_event, Alarm.handle_system_status_event,
      Alarm.ARM_EVENTS_MAP, Alarm.update_arming_state]

/-- Witness for C10: ARMED_HOME received while ARMING with recorded mode
ARMED_AWAY — the mode flips to ARMED_HOME, no notification is emitted. -/
theorem arming_mode_overwrite_not_notified_witness :
    ({ Alarm.init false with
        arming_state := ArmingState.ARMING
        arming_mode := some ArmingMode.ARMED_AWAY } : Alarm).handle_event
      (BaseEvent.systemStatus ⟨SystemStatusEvent.EventType.ARMED_HOME, none⟩) =
      some ({ { Alarm.init false with
          arming_state := ArmingState.ARMING
          arming_mode := some ArmingMode.ARMED_AWAY } with
            arming_mode := some ArmingMode.ARMED_HOME }, []) :=
  arming_mode_overwrite_not_notified
    ({ Alarm.init false with
        arming_state := ArmingState.ARMING
        arming_mode := some ArmingMode.ARMED_AWAY } : Alarm)
    SystemStatusEvent.EventType.ARMED_HOME ArmingMode.ARMED_HOME none rfl rfl

/-! ## C7: totality of event handling -/

theorem pyIndex_isSome_of_bounds (n : Nat) (i : Int)
    (h1 : -(n : Int) ≤ i) (h2 : i < (n : Int)) : (pyIndex n i).isSome = true := by
  unfold pyIndex
  by_cases ha : 0 ≤ i
  · rw [if_pos ha, if_pos h2]
    rfl
  · rw [if_neg ha, if_pos h1]
    rfl

/-- `_update_zone` once the Python index has resolved to slot `i`. -/
theorem Alarm.update_zone_eq (a : Alarm) (z : Int) (v : Bool) (i : Nat)
    (hp : pyIndex a.zones.length (z - 1) = some i) :
    a.update_zone z v =
      if (a.zones.getD i ⟨none⟩).triggered = some v then some (a, [])
      else some ({ a with zones := a.zones.set i ⟨some v⟩ },
        [Notification.zoneChange z v]) := by
  unfold Alarm.update_zone
  rw [hp]
  by_cases h : (a.zones.getD i ⟨none⟩).triggered = some v <;> simp [h]

theorem Alarm.update_zone_isSome (a : Alarm) (z : Int) (v : Bool)
    (h1 : -(a.zones.length : Int) ≤ z - 1)
    (h2 : z - 1 < (a.zones.length : Int)) :
    (a.update_zone z v).isSome = true := by
  cases hp : pyIndex a.zones.length (z - 1) with
  | none =>
    have hs := pyIndex_isSome_of_bounds a.zones.length (z - 1) h1 h2
    rw [hp] at hs
    simp at hs
  | some i =>
    rw [Alarm.update_zone_eq a z v i hp]
    split_ifs <;> rfl

/-- The event addresses no zone slot outside Python's indexable range for a
16-element list: for UNSEALED/SEALED the zone must be present and in
[-15, 16] (the documented range being 1..16). -/
def zoneIndexable : BaseEvent → Prop
  | BaseEvent.systemStatus ev =>
    (ev.type = SystemStatusEvent.EventType.UNSEALED ∨
     ev.type = SystemStatusEvent.EventType.SEALED) →
    ∃ z : Int, ev.zone = some z ∧ -15 ≤ z ∧ z ≤ 16
  | _ => True

/-- C7 counterexample: the claim says a SEALED event whose zone is outside
1..16 is a silent no-op, but with zone 17 the code raises IndexError
(`zones[16]` on a 16-element list), modelled by the `none` result. -/
theorem handle_event_raises_on_zone_17 :
    (Alarm.init false).handle_event
      (BaseEvent.systemStatus ⟨SystemStatusEvent.EventType.SEALED, some 17⟩) =
      none := by
  rfl

/-- C7 (amended): handling never raises for events within the indexable
range — any unmatched variant, EventType or flag combination is a silent
no-op — but an UNSEALED/SEALED event whose zone is absent or outside
[-15, 16] raises an index/type error (and zone values in -15..0, though
"outside 1..16", are not no-ops: they address a wrapped slot, see C9). -/
theorem handle_event_total_on_indexable (a : Alarm) (e : BaseEvent)
    (h16 : a.zones.length = 16) (hz : zoneIndexable e) :
    ((a.handle_event e).isSome = true) ∧
    (∀ (req : ZoneUpdate.RequestID) (inc : Finset Nat),
      req ≠ ZoneUpdate.RequestID.ZONE_INPUT_UNSEALED →
      a.handle_event (BaseEvent.zoneUpdate req inc) = some (a, [])) ∧
    (a.handle_event BaseEvent.other = some (a, [])) := by
  refine ⟨?_, ?_, ?_⟩
  · cases e with
    | armingUpdate status => rfl
    | other => rfl
    | zoneUpdate req inc =>
      show (if req = ZoneUpdate.RequestID.ZONE_INPUT_UNSEALED
        then a.handle_zone_input_update inc else some (a, [])).isSome = true
      by_cases hr : req = ZoneUpdate.RequestID.ZONE_INPUT_UNSEALED
      · rw [if_pos hr, Alarm.handle_zone_input_update_spec]
        rfl
      · rw [if_neg hr]
        rfl
    | systemStatus ev =>
      obtain ⟨t, zo⟩ := ev
      show (a.handle_system_status_event ⟨t, zo⟩).isSome = true
      cases t
      case UNSEALED =>
        obtain ⟨z, hzo, hb1, hb2⟩ := hz (Or.inl rfl)
        subst hzo
        show (a.update_zone z true).isSome = true
        exact a.update_zone_isSome z true (by rw [h16]; omega) (by rw [h16]; omega)
      case SEALED =>
        obtain ⟨z, hzo, hb1, hb2⟩ := hz (Or.inr rfl)
        subst hzo
        show (a.update_zone z false).isSome = true
        exact a.update_zone_isSome z false (by rw [h16]; omega) (by rw [h16]; omega)
      all_goals
        simp [Alarm.handle_system_status_event, Alarm.ARM_EVENTS_MAP, apply_ite]
  · intro req inc hreq
    show (if req = ZoneUpdate.RequestID.ZONE_INPUT_UNSEALED
      then a.handle_zone_input_update inc else some (a, [])) = some (a, [])
    rw [if_neg hreq]
  · rfl

/-- Witness for C7 (amended): a concrete UNSEALED event at zone 3 succeeds
on a fresh instance, a ZoneUpdate of another request kind is a no-op, and an
unrecognized variant is a no-op. -/
theorem handle_event_total_on_indexable_witness :
    (((Alarm.init false).handle_event
      (BaseEvent.systemStatus ⟨SystemStatusEvent.EventType.UNSEALED, some 3⟩)).isSome
      = true) ∧
    ((Alarm.init false).handle_event
      (BaseEvent.zoneUpdate ZoneUpdate.RequestID.OTHER ({3} : Finset Nat)) =
      some (Alarm.init false, [])) ∧
    ((Alarm.init false).handle_event BaseEvent.other =
      some (Alarm.init false, [])) :=
  ⟨(handle_event_total_on_indexable (Alarm.init false)
      (BaseEvent.systemStatus ⟨SystemStatusEvent.EventType.UNSEALED, some 3⟩) rfl
      (fun _ => ⟨3, rfl, by decide, by decide⟩)).1,
   (handle_event_total_on_indexable (Alarm.init false) BaseEvent.other rfl
      trivial).2.1 ZoneUpdate.RequestID.OTHER ({3} : Finset Nat) (by decide),
   (handle_event_total_on_indexable (Alarm.init false) BaseEvent.other rfl
      trivial).2.2⟩

/-! ## C3: where the recorded arming mode can be non-absent -/

/-- C3 counterexample: from a fresh instance, an ARMED_AWAY system-status
event (state ARMING, mode ARMED_AWAY) followed by an empty-status
ArmingUpdate reaches state DISARMED with the mode still recorded: the
fallback transition to DISARMED does not clear the mode, and the mode is
non-absent outside the arming/armed family. -/
theorem arming_mode_survives_fallback_disarm :
    ((Alarm.init false).runEvents
      [BaseEvent.systemStatus ⟨SystemStatusEvent.EventType.ARMED_AWAY, none⟩,
       BaseEvent.armingUpdate (∅ : Finset ArmingUpdate.ArmingStatus)]).map
      (fun s => (s.arming_state, s.arming_mode)) =
      some (ArmingState.DISARMED, some ArmingMode.ARMED_AWAY) := by
  rfl

/-- Destructing `_update_arming_state`: the new state is the requested one
and every other field is untouched. -/
theorem Alarm.update_arming_state_dest (a : Alarm) (s : ArmingState)
    (a' : Alarm) (ns : List Notification)
    (h : a.update_arming_state s = (a', ns)) :
    a'.arming_state = s ∧ a'.arming_mode = a.arming_mode ∧
      a'.infer_arming_state = a.infer_arming_state ∧ a'.zones = a.zones := by
  have h1 : (a.update_arming_state s).1 = a' := congrArg Prod.fst h
  rw [← h1]
  simp

/-- Destructing a successful `_update_zone`: arming state, mode, flag and
the zones count are untouched. -/
theorem Alarm.update_zone_preserves (a : Alarm) (z : Int) (v : Bool)
    (a' : Alarm) (ns : List Notification)
    (h : a.update_zone z v = some (a', ns)) :
    a'.arming_state = a.arming_state ∧ a'.arming_mode = a.arming_mode ∧
      a'.infer_arming_state = a.infer_arming_state ∧
      a'.zones.length = a.zones.length := by
  cases hp : pyIndex a.zones.length (z - 1) with
  | none =>
    have hnone : a.update_zone z v = none := by
      unfold Alarm.update_zone
      rw [hp]
    rw [hnone] at h
    exact absurd h (by simp)
  | some i =>
    rw [Alarm.update_zone_eq a z v i hp] at h
    split_ifs at h with hc
    · have h1 : a = a' := congrArg Prod.fst (Option.some.inj h)
      rw [← h1]
      simp
    · have h1 : ({ a with zones := a.zones.set i ⟨some v⟩ } : Alarm) = a' :=
        congrArg Prod.fst (Option.some.inj h)
      rw [← h1]
      simp

/-- One handled event preserves the invariant "while UNKNOWN, no recorded
mode". -/
theorem handle_event_preserves_unknown_mode (a : Alarm) (e : BaseEvent)
    (a' : Alarm) (ns : List Notification)
    (hstep : a.handle_event e = some (a', ns))
    (hinv : a.arming_state = ArmingState.UNKNOWN → a.arming_mode = none) :
    a'.arming_state = ArmingState.UNKNOWN → a'.arming_mode = none := by
  intro hu
  cases e with
  | other =>
    have h1 : a = a' := congrArg Prod.fst (Option.some.inj hstep)
    rw [← h1] at hu ⊢
    exact hinv hu
  | armingUpdate status =>
    have heq : a.handle_arming_update status = (a', ns) :=
      Option.some.inj hstep
    unfold Alarm.handle_arming_update at heq
    split_ifs at heq with h1 h2 h3 h4 h5 h6
    · rw [(Alarm.update_arming_state_dest a _ a' ns heq).1] at hu
      exact absurd hu (by decide)
    · rw [(Alarm.update_arming_state_dest a _ a' ns heq).1] at hu
      exact absurd hu (by decide)
    · rw [(Alarm.update_arming_state_dest a _ a' ns heq).1] at hu
      exact absurd hu (by decide)
    · rw [(Alarm.update_arming_state_dest a _ a' ns heq).1] at hu
      exact absurd hu (by decide)
    · rw [(Alarm.update_arming_state_dest a _ a' ns heq).1] at hu
      exact absurd hu (by decide)
    · have h1 : a = a' := congrArg Prod.fst heq
      rw [← h1] at hu ⊢
      exact hinv hu
    · rw [(Alarm.update_arming_state_dest a _ a' ns heq).1] at hu
      exact absurd hu (by decide)
  | zoneUpdate req inc =>
    by_cases hr : req = ZoneUpdate.RequestID.ZONE_INPUT_UNSEALED
    · have heq : a.handle_zone_input_update inc = some (a', ns) := by
        rw [← hstep]
        show _ = (if req = ZoneUpdate.RequestID.ZONE_INPUT_UNSEALED
          then a.handle_zone_input_update inc else some (a, []))
        rw [if_pos hr]
      rw [Alarm.handle_zone_input_update_spec] at heq
      have h1 : ({ a with zones := zonesAfter a inc a.zones.length } : Alarm) = a' :=
        congrArg Prod.fst (Option.some.inj heq)
      rw [← h1] at hu ⊢
      exact hinv hu
    · have heq : (a, []) = (a', ns) := by
        apply Option.some.inj
        rw [← hstep]
        show _ = (if req = ZoneUpdate.RequestID.ZONE_INPUT_UNSEALED
          then a.handle_zone_input_update inc else some (a, []))
        rw [if_neg hr]
      have h1 : a = a' := congrArg Prod.fst heq
      rw [← h1] at hu ⊢
      exact hinv hu
  | systemStatus ev =>
    obtain ⟨t, zo⟩ := ev
    have hss : a.handle_system_status_event ⟨t, zo⟩ = some (a', ns) := hstep
    cases t
    case UNSEALED =>
      cases hzo : zo with
      | none =>
        rw [hzo] at hss
        simp [Alarm.handle_system_status_event] at hss
      | some z =>
        rw [hzo] at hss
        simp only [Alarm.handle_system_status_event] at hss
        simp at hss
        obtain ⟨hs, hm, _, _⟩ := Alarm.update_zone_preserves a z true a' ns hss
        rw [hs] at hu
        rw [hm]
        exact hinv hu
    case SEALED =>
      cases hzo : zo with
      | none =>
        rw [hzo] at hss
        simp [Alarm.handle_system_status_event] at hss
      | some z =>
        rw [hzo] at hss
        simp only [Alarm.handle_system_status_event] at hss
        simp at hss
        obtain ⟨hs, hm, _, _⟩ := Alarm.update_zone_preserves a z false a' ns hss
        rw [hs] at hu
        rw [hm]
        exact hinv hu
    case ALARM =>
      simp only [Alarm.handle_system_status_event] at hss
      simp at hss
      rw [(Alarm.update_arming_state_dest a _ a' ns hss).1] at hu
      exact absurd hu (by decide)
    case ALARM_RESTORE =>
      simp only [Alarm.handle_system_status_event] at hss
      simp at hss
      by_cases hds : a.arming_state = ArmingState.DISARMED
      · rw [if_pos hds] at hss
        have h1 : a = a' := congrArg Prod.fst (Option.some.inj hss)
        rw [← h1] at hu ⊢
        exact hinv hu
      · rw [if_neg hds] at hss
        rw [(Alarm.update_arming_state_dest a _ a' ns (Option.some.inj hss)).1] at hu
        exact absurd hu (by decide)
    case ENTRY_DELAY_START =>
      simp only [Alarm.handle_system_status_event] at hss
      simp at hss
      rw [(Alarm.update_arming_state_dest a _ a' ns hss).1] at hu
      exact absurd hu (by decide)
    case ENTRY_DELAY_END =>
      simp only [Alarm.handle_system_status_event] at hss
      simp at hss
      rw [← hss.1] at hu ⊢
      exact hinv hu
    case EXIT_DELAY_START =>
      simp only [Alarm.handle_system_status_event] at hss
      simp at hss
      rw [(Alarm.update_arming_state_dest a _ a' ns hss).1] at hu
      exact absurd hu (by decide)
    case EXIT_DELAY_END =>
      simp only [Alarm.handle_system_status_event] at hss
      simp at hss
      by_cases hed : a.arming_state = ArmingState.EXIT_DELAY
      · rw [if_pos hed] at hss
        rw [(Alarm.update_arming_state_dest a _ a' ns (Option.some.inj hss)).1] at hu
        exact absurd hu (by decide)
      · rw [if_neg hed] at hss
        have h1 : a = a' := congrArg Prod.fst (Option.some.inj hss)
        rw [← h1] at hu ⊢
        exact hinv hu
    case ARMED_AWAY =>
      simp only [Alarm.handle_system_status_event] at hss
      simp [Alarm.ARM_EVENTS_MAP] at hss
      rw [(Alarm.update_arming_state_dest _ _ a' ns hss).1] at hu
      exact absurd hu (by decide)
    case ARMED_HOME =>
      simp only [Alarm.handle_system_status_event] at hss
      simp [Alarm.ARM_EVENTS_MAP] at hss
      rw [(Alarm.update_arming_state_dest _ _ a' ns hss).1] at hu
      exact absurd hu (by decide)
    case ARMED_DAY =>
      simp only [Alarm.handle_system_status_event] at hss
      simp [Alarm.ARM_EVENTS_MAP] at hss
      rw [(Alarm.update_arming_state_dest _ _ a' ns hss).1] at hu
      exact absurd hu (by decide)
    case ARMED_NIGHT =>
      simp only [Alarm.handle_system_status_event] at hss
      simp [Alarm.ARM_EVENTS_MAP] at hss
      rw [(Alarm.update_arming_state_dest _ _ a' ns hss).1] at hu
      exact absurd hu (by decide)
    case ARMED_VACATION =>
      simp only [Alarm.handle_system_status_event] at hss
      simp [Alarm.ARM_EVENTS_MAP] at hss
      rw [(Alarm.update_arming_state_dest _ _ a' ns hss).1] at hu
      exact absurd hu (by decide)
    case ARMED_HIGHEST =>
      simp only [Alarm.handle_system_status_event] at hss
      simp [Alarm.ARM_EVENTS_MAP] at hss
      rw [(Alarm.update_arming_state_dest _ _ a' ns hss).1] at hu
      exact absurd hu (by decide)
    case DISARMED =>
      simp only [Alarm.handle_system_status_event] at hss
      simp [Alarm.ARM_EVENTS_MAP] at hss
      obtain ⟨_, hm, _, _⟩ := Alarm.update_arming_state_dest _ _ a' ns hss
      rw [hm]
    case ARMING_DELAYED =>
      simp only [Alarm.handle_system_status_event] at hss
      simp [Alarm.ARM_EVENTS_MAP] at hss
      rw [← hss.1] at hu ⊢
      exact hinv hu
    case OTHER =>
      simp only [Alarm.handle_system_status_event] at hss
      simp [Alarm.ARM_EVENTS_MAP] at hss
      rw [← hss.1] at hu ⊢
      exact hinv hu

/-- The invariant "while UNKNOWN, no recorded mode" is preserved along any
successful event sequence. -/
theorem runEvents_preserves_unknown_mode (es : List BaseEvent) :
    ∀ a s : Alarm, a.runEvents es = some s →
    (a.arming_state = ArmingState.UNKNOWN → a.arming_mode = none) →
    (s.arming_state = ArmingState.UNKNOWN → s.arming_mode = none) := by
  induction es with
  | nil =>
    intro a s h hinv
    have ha : a = s := by
      unfold Alarm.runEvents at h
      simpa using h
    rw [← ha]
    exact hinv
  | cons e es ih =>
    intro a s h hinv
    unfold Alarm.runEvents at h
    rw [List.foldlM_cons] at h
    cases hfe : a.handle_event e with
    | none =>
      rw [hfe] at h
      simp at h
    | some r =>
      rw [hfe] at h
      simp only [Option.map_some', Option.some_bind] at h
      have hrun : Alarm.runEvents r.1 es = some s := h
      have hr : a.handle_event e = some (r.1, r.2) := hfe
      exact ih r.1 s hrun
        (handle_event_preserves_unknown_mode a e r.1 r.2 hr hinv)

/-- C3 (amended): in every reachable state the recorded ArmingMode is
non-absent only while the arming state is in the arming/armed family
(ARMING, EXIT_DELAY, ARMED, ARMED_MONITOR, ENTRY_DELAY, TRIGGERED) or
DISARMED — never while UNKNOWN — and the mode is cleared on every DISARMED
system-status transition. It is NOT cleared by the DISARMED transition the
ArmingUpdate fallback rule performs (see the counterexample), which is how
DISARMED joins the family. -/
theorem arming_mode_only_outside_unknown :
    (∀ (infer : Bool) (es : List BaseEvent) (s : Alarm),
      (Alarm.init infer).runEvents es = some s →
      s.arming_mode ≠ none →
      s.arming_state = ArmingState.ARMING ∨
      s.arming_state = ArmingState.EXIT_DELAY ∨
      s.arming_state = ArmingState.ARMED ∨
      s.arming_state = ArmingState.ARMED_MONITOR ∨
      s.arming_state = ArmingState.ENTRY_DELAY ∨
      s.arming_state = ArmingState.TRIGGERED ∨
      s.arming_state = ArmingState.DISARMED) ∧
    (∀ (a : Alarm) (z : Option Int),
      (a.handle_event
          (BaseEvent.systemStatus ⟨SystemStatusEvent.EventType.DISARMED, z⟩)).map
        (fun r => r.1.arming_mode) = some none) := by
  constructor
  · intro infer es s hrun hm
    have hinv := runEvents_preserves_unknown_mode es (Alarm.init infer) s hrun
      (fun _ => rfl)
    cases hs : s.arming_state
    case UNKNOWN => exact absurd (hinv hs) hm
    all_goals simp
  · intro a z
    simp [Alarm.handle_event, Alarm.handle_system_status_event,
      Alarm.ARM_EVENTS_MAP, Alarm.update_arming_state, apply_ite]

/-- Witness for C3 (amended): after arming from fresh (ARMED_AWAY event),
the recorded mode forces the state into the family — here ARMING — and a
DISARMED event on an armed instance clears the mode. -/
theorem arming_mode_only_outside_unknown_witness :
    (((Alarm.init false).runEvents
        [BaseEvent.systemStatus ⟨SystemStatusEvent.EventType.ARMED_AWAY, none⟩]).map
      (fun s => s.arming_state) = some ArmingState.ARMING) ∧
    ((({ Alarm.init false with
          arming_state := ArmingState.ARMED
          arming_mode := some ArmingMode.ARMED_AWAY } : Alarm).handle_event
        (BaseEvent.systemStatus ⟨SystemStatusEvent.EventType.DISARMED, none⟩)).map
      (fun r => r.1.arming_mode) = some none) := by
  constructor
  · have hrun : (Alarm.init false).runEvents
        [BaseEvent.systemStatus ⟨SystemStatusEvent.EventType.ARMED_AWAY, none⟩] =
        some ({ Alarm.init false with
          arming_state := ArmingState.ARMING
          arming_mode := some ArmingMode.ARMED_AWAY } : Alarm) := by rfl
    have hfam := (arming_mode_only_outside_unknown).1 false
      [BaseEvent.systemStatus ⟨SystemStatusEvent.EventType.ARMED_AWAY, none⟩]
      ({ Alarm.init false with
          arming_state := ArmingState.ARMING
          arming_mode := some ArmingMode.ARMED_AWAY } : Alarm)
      hrun (by decide)
    rw [hrun]
    rcases hfam with h | h | h | h | h | h | h <;> simp_all
  · exact (arming_mode_only_outside_unknown).2
      ({ Alarm.init false with
          arming_state := ArmingState.ARMED
          arming_mode := some ArmingMode.ARMED_AWAY } : Alarm) none

/-! ## C8: handling the same event twice -/

theorem pyIndex_lt (n : Nat) (t : Int) (i : Nat)
    (h : pyIndex n t = some i) : i < n := by
  unfold pyIndex at h
  split_ifs at h with h1 h2 h3
  · have h4 := Option.some.inj h
    omega
  · have h4 := Option.some.inj h
    omega

/-- A second, identical zone reassessment is a no-op. -/
theorem zonesAfter_idem (a a' : Alarm) (inc : Finset Nat)
    (hz : a'.zones = zonesAfter a inc a.zones.length) :
    zonesAfter a' inc a'.zones.length = a'.zones := by
  have hlen : a'.zones.length = a.zones.length := by
    rw [hz, zonesAfter_length]
  apply List.ext_getElem
  · rw [zonesAfter_length]
  · intro k h1 h2
    rw [← List.getD_eq_getElem _ ⟨none⟩ h1, ← List.getD_eq_getElem _ ⟨none⟩ h2]
    have hk : k < a'.zones.length := h2
    rw [zonesAfter_getD a' inc _ k hk, if_pos hk]
    rw [hz, zonesAfter_getD a inc _ k (by omega), if_pos (by omega)]

/-- A second, identical zone reassessment emits no notification. -/
theorem notifsAfter_idem (a a' : Alarm) (inc : Finset Nat)
    (hz : a'.zones = zonesAfter a inc a.zones.length) :
    notifsAfter a' inc a'.zones.length = [] := by
  have hlen : a'.zones.length = a.zones.length := by
    rw [hz, zonesAfter_length]
  unfold notifsAfter
  rw [List.filterMap_eq_nil_iff]
  intro j hj
  rw [List.mem_range] at hj
  have hjl : j < a.zones.length := by omega
  rw [hz, zonesAfter_getD a inc a.zones.length j hjl, if_pos hjl,
    if_pos (show (zoneTarget inc j).triggered = some (decide ((j + 1) ∈ inc))
      from rfl)]

/-- A second, identical `_update_zone` is a silent no-op. -/
theorem Alarm.update_zone_idem (a a' : Alarm) (z : Int) (v : Bool)
    (ns : List Notification) (h : a.update_zone z v = some (a', ns)) :
    a'.update_zone z v = some (a', []) := by
  cases hp : pyIndex a.zones.length (z - 1) with
  | none =>
    have hnone : a.update_zone z v = none := by
      unfold Alarm.update_zone
      rw [hp]
    rw [hnone] at h
    exact absurd h (by simp)
  | some i =>
    have hi : i < a.zones.length := pyIndex_lt _ _ _ hp
    rw [Alarm.update_zone_eq a z v i hp] at h
    split_ifs at h with hc
    · have ha : a = a' := congrArg Prod.fst (Option.some.inj h)
      rw [Alarm.update_zone_eq a' z v i (by rw [← ha]; exact hp)]
      rw [if_pos (by rw [← ha]; exact hc)]
    · have ha' : ({ a with zones := a.zones.set i ⟨some v⟩ } : Alarm) = a' :=
        congrArg Prod.fst (Option.some.inj h)
      have hz : a'.zones = a.zones.set i ⟨some v⟩ := by rw [← ha']
      have hlen : a'.zones.length = a.zones.length := by
        rw [hz, List.length_set]
      have hp' : pyIndex a'.zones.length (z - 1) = some i := by
        rw [hlen]
        exact hp
      rw [Alarm.update_zone_eq a' z v i hp']
      rw [if_pos ?hcond]
      case hcond =>
        rw [hz, List.getD_eq_getElem?_getD, List.getElem?_set]
        simp [hi]
  -- leaving no residual goals

/-- Updating the arming-mode field with its current value is the identity. -/
theorem Alarm.set_mode_self (a : Alarm) (m : Option ArmingMode)
    (h : a.arming_mode = m) : ({ a with arming_mode := m } : Alarm) = a := by
  cases a
  simp_all

/-- A second, identical `_update_arming_state` is a silent no-op. -/
theorem Alarm.update_state_idem (a a' : Alarm) (s : ArmingState)
    (ns : List Notification) (h : a.update_arming_state s = (a', ns)) :
    a'.update_arming_state s = (a', []) :=
  Alarm.update_arming_state_of_eq a' s
    (Alarm.update_arming_state_dest a s a' ns h).1

/-- A second, identical ARMED_x transition rewrites the same mode and is a
silent no-op. -/
theorem Alarm.arm_event_idem (a a' : Alarm) (m : ArmingMode)
    (ns : List Notification)
    (h : Alarm.update_arming_state { a with arming_mode := some m }
      ArmingState.ARMING = (a', ns)) :
    Alarm.update_arming_state { a' with arming_mode := some m }
      ArmingState.ARMING = (a', []) := by
  obtain ⟨hs, hm, _, _⟩ := Alarm.update_arming_state_dest _ _ a' ns h
  have hm' : a'.arming_mode = some m := hm
  rw [Alarm.set_mode_self a' (some m) hm']
  exact Alarm.update_arming_state_of_eq a' _ hs

/-- C8: handling the same event twice in immediate succession notifies at
most once per changed value — the second application returns the state
unchanged and emits no notification at all. -/
theorem handle_event_idempotent (a : Alarm) (e : BaseEvent)
    (a' : Alarm) (ns : List Notification)
    (h : a.handle_event e = some (a', ns)) :
    a'.handle_event e = some (a', []) := by
  cases e with
  | other =>
    have ha : a = a' := congrArg Prod.fst (Option.some.inj h)
    show some (a', []) = some (a', [])
    rfl
  | armingUpdate status =>
    have heq : a.handle_arming_update status = (a', ns) := Option.some.inj h
    show some (a'.handle_arming_update status) = some (a', [])
    apply congrArg some
    unfold Alarm.handle_arming_update at heq ⊢
    split_ifs at heq with h1 h2 h3 h4 h5 h6
    · obtain ⟨hs, _, _, _⟩ := Alarm.update_arming_state_dest a _ a' ns heq
      rw [if_pos h1]
      exact Alarm.update_arming_state_of_eq a' _ hs
    · obtain ⟨hs, _, _, _⟩ := Alarm.update_arming_state_dest a _ a' ns heq
      rw [if_neg h1, if_pos h2]
      exact Alarm.update_arming_state_of_eq a' _ hs
    · obtain ⟨hs, _, _, _⟩ := Alarm.update_arming_state_dest a _ a' ns heq
      rw [if_neg h1, if_neg h2, if_pos hs]
      exact Alarm.update_arming_state_of_eq a' _ hs
    · obtain ⟨hs, _, _, _⟩ := Alarm.update_arming_state_dest a _ a' ns heq
      rw [if_neg h1, if_neg h2, if_neg (by rw [hs]; decide), if_pos h4]
      exact Alarm.update_arming_state_of_eq a' _ hs
    · obtain ⟨hs, _, hinf, _⟩ := Alarm.update_arming_state_dest a _ a' ns heq
      rw [if_neg h1, if_neg h2, if_neg (by rw [hs]; decide), if_neg h4,
        if_pos (by rw [hinf]; exact h5), if_neg (by rw [hs]; decide)]
    · have ha : a = a' := congrArg Prod.fst heq
      rw [← ha]
      rw [if_neg h1, if_neg h2, if_neg h3, if_neg h4, if_pos h5, if_neg h6]
    · obtain ⟨hs, _, hinf, _⟩ := Alarm.update_arming_state_dest a _ a' ns heq
      rw [if_neg h1, if_neg h2, if_neg (by rw [hs]; decide), if_neg h4,
        if_neg (by rw [hinf]; exact h5)]
      exact Alarm.update_arming_state_of_eq a' _ hs
  | zoneUpdate req inc =>
    by_cases hr : req = ZoneUpdate.RequestID.ZONE_INPUT_UNSEALED
    · subst hr
      have heq : a.handle_zone_input_update inc = some (a', ns) := h
      rw [Alarm.handle_zone_input_update_spec] at heq
      have ha' : ({ a with zones := zonesAfter a inc a.zones.length } : Alarm) = a' :=
        congrArg Prod.fst (Option.some.inj heq)
      have hz : a'.zones = zonesAfter a inc a.zones.length := by rw [← ha']
      show a'.handle_zone_input_update inc = some (a', [])
      rw [Alarm.handle_zone_input_update_spec]
      rw [zonesAfter_idem a a' inc hz, notifsAfter_idem a a' inc hz]
    · have h2 : (if req = ZoneUpdate.RequestID.ZONE_INPUT_UNSEALED
          then a.handle_zone_input_update inc else some (a, [])) =
          some (a', ns) := h
      rw [if_neg hr] at h2
      have ha : a = a' := congrArg Prod.fst (Option.some.inj h2)
      show (if req = ZoneUpdate.RequestID.ZONE_INPUT_UNSEALED
          then a'.handle_zone_input_update inc else some (a', [])) =
        some (a', [])
      rw [if_neg hr]
  | systemStatus ev =>
    obtain ⟨t, zo⟩ := ev
    cases t
    case UNSEALED =>
      cases hzo : zo with
      | none =>
        rw [hzo] at h
        exact absurd (show (none : Option (Alarm × List Notification)) =
          some (a', ns) from h) (by simp)
      | some z =>
        rw [hzo] at h
        have h2 : a.update_zone z true = some (a', ns) := h
        show a'.update_zone z true = some (a', [])
        exact Alarm.update_zone_idem a a' z true ns h2
    case SEALED =>
      cases hzo : zo with
      | none =>
        rw [hzo] at h
        exact absurd (show (none : Option (Alarm × List Notification)) =
          some (a', ns) from h) (by simp)
      | some z =>
        rw [hzo] at h
        have h2 : a.update_zone z false = some (a', ns) := h
        show a'.update_zone z false = some (a', [])
        exact Alarm.update_zone_idem a a' z false ns h2
    case ALARM =>
      have h2 : a.update_arming_state ArmingState.TRIGGERED = (a', ns) :=
        Option.some.inj h
      show some (a'.update_arming_state ArmingState.TRIGGERED) = some (a', [])
      exact congrArg some (Alarm.update_state_idem a a' _ ns h2)
    case ALARM_RESTORE =>
      have h2 : (if a.arming_state ≠ ArmingState.DISARMED
          then some (a.update_arming_state ArmingState.ARMED)
          else some (a, [])) = some (a', ns) := h
      show (if a'.arming_state ≠ ArmingState.DISARMED
          then some (a'.update_arming_state ArmingState.ARMED)
          else some (a', [])) = some (a', [])
      by_cases hd : a.arming_state = ArmingState.DISARMED
      · rw [if_neg (not_not_intro hd)] at h2
        have ha : a = a' := congrArg Prod.fst (Option.some.inj h2)
        rw [if_neg (not_not_intro (show a'.arming_state = ArmingState.DISARMED
          from ha ▸ hd))]
      · rw [if_pos hd] at h2
        obtain ⟨hs, _, _, _⟩ :=
          Alarm.update_arming_state_dest a _ a' ns (Option.some.inj h2)
        rw [if_pos (show a'.arming_state ≠ ArmingState.DISARMED from by
          rw [hs]; decide)]
        exact congrArg some (Alarm.update_arming_state_of_eq a' _ hs)
    case ENTRY_DELAY_START =>
      have h2 : a.update_arming_state ArmingState.ENTRY_DELAY = (a', ns) :=
        Option.some.inj h
      show some (a'.update_arming_state ArmingState.ENTRY_DELAY) = some (a', [])
      exact congrArg some (Alarm.update_state_idem a a' _ ns h2)
    case ENTRY_DELAY_END =>
      have ha : a = a' := congrArg Prod.fst (Option.some.inj h)
      show some (a', []) = some (a', [])
      rfl
    case EXIT_DELAY_START =>
      have h2 : a.update_arming_state ArmingState.EXIT_DELAY = (a', ns) :=
        Option.some.inj h
      show some (a'.update_arming_state ArmingState.EXIT_DELAY) = some (a', [])
      exact congrArg some (Alarm.update_state_idem a a' _ ns h2)
    case EXIT_DELAY_END =>
      have h2 : (if a.arming_state = ArmingState.EXIT_DELAY
          then some (a.update_arming_state ArmingState.ARMED)
          else some (a, [])) = some (a', ns) := h
      show (if a'.arming_state = ArmingState.EXIT_DELAY
          then some (a'.update_arming_state ArmingState.ARMED)
          else some (a', [])) = some (a', [])
      by_cases he : a.arming_state = ArmingState.EXIT_DELAY
      · rw [if_pos he] at h2
        obtain ⟨hs, _, _, _⟩ :=
          Alarm.update_arming_state_dest a _ a' ns (Option.some.inj h2)
        rw [if_neg (show ¬ a'.arming_state = ArmingState.EXIT_DELAY from by
          rw [hs]; decide)]
      · rw [if_neg he] at h2
        have ha : a = a' := congrArg Prod.fst (Option.some.inj h2)
        rw [if_neg (show ¬ a'.arming_state = ArmingState.EXIT_DELAY from
          ha ▸ he)]
    case ARMED_AWAY =>
      have h2 : Alarm.update_arming_state
          { a with arming_mode := some ArmingMode.ARMED_AWAY }
          ArmingState.ARMING = (a', ns) := Option.some.inj h
      show some (Alarm.update_arming_state
          { a' with arming_mode := some ArmingMode.ARMED_AWAY }
          ArmingState.ARMING) = some (a', [])
      exact congrArg some (Alarm.arm_event_idem a a' _ ns h2)
    case ARMED_HOME =>
      have h2 : Alarm.update_arming_state
          { a with arming_mode := some ArmingMode.ARMED_HOME }
          ArmingState.ARMING = (a', ns) := Option.some.inj h
      show some (Alarm.update_arming_state
          { a' with arming_mode := some ArmingMode.ARMED_HOME }
          ArmingState.ARMING) = some (a', [])
      exact congrArg some (Alarm.arm_event_idem a a' _ ns h2)
    case ARMED_DAY =>
      have h2 : Alarm.update_arming_state
          { a with arming_mode := some ArmingMode.ARMED_DAY }
          ArmingState.ARMING = (a', ns) := Option.some.inj h
      show some (Alarm.update_arming_state
          { a' with arming_mode := some ArmingMode.ARMED_DAY }
          ArmingState.ARMING) = some (a', [])
      exact congrArg some (Alarm.arm_event_idem a a' _ ns h2)
    case ARMED_NIGHT =>
      have h2 : Alarm.update_arming_state
          { a with arming_mode := some ArmingMode.ARMED_NIGHT }
          ArmingState.ARMING = (a', ns) := Option.some.inj h
      show some (Alarm.update_arming_state
          { a' with arming_mode := some ArmingMode.ARMED_NIGHT }
          ArmingState.ARMING) = some (a', [])
      exact congrArg some (Alarm.arm_event_idem a a' _ ns h2)
    case ARMED_VACATION =>
      have h2 : Alarm.update_arming_state
          { a with arming_mode := some ArmingMode.ARMED_VACATION }
          ArmingState.ARMING = (a', ns) := Option.some.inj h
      show some (Alarm.update_arming_state
          { a' with arming_mode := some ArmingMode.ARMED_VACATION }
          ArmingState.ARMING) = some (a', [])
      exact congrArg some (Alarm.arm_event_idem a a' _ ns h2)
    case ARMED_HIGHEST =>
      have h2 : Alarm.update_arming_state
          { a with arming_mode := some ArmingMode.ARMED_HIGHEST }
          ArmingState.ARMING = (a', ns) := Option.some.inj h
      show some (Alarm.update_arming_state
          { a' with arming_mode := some ArmingMode.ARMED_HIGHEST }
          ArmingState.ARMING) = some (a', [])
      exact congrArg some (Alarm.arm_event_idem a a' _ ns h2)
    case DISARMED =>
      have h2 : Alarm.update_arming_state { a with arming_mode := none }
          ArmingState.DISARMED = (a', ns) := Option.some.inj h
      obtain ⟨hs, hm, _, _⟩ := Alarm.update_arming_state_dest _ _ a' ns h2
      have hm' : a'.arming_mode = none := hm
      show some (Alarm.update_arming_state { a' with arming_mode := none }
          ArmingState.DISARMED) = some (a', [])
      rw [Alarm.set_mode_self a' none hm']
      exact congrArg some (Alarm.update_arming_state_of_eq a' _ hs)
    case ARMING_DELAYED =>
      have ha : a = a' := congrArg Prod.fst (Option.some.inj h)
      show some (a', []) = some (a', [])
      rfl
    case OTHER =>
      have ha : a = a' := congrArg Prod.fst (Option.some.inj h)
      show some (a', []) = some (a', [])
      rfl

/-- Witness for C8: the ARMED_AWAY event applied twice — the first
application transitions UNKNOWN to ARMING with one notification, the second
is a silent no-op. -/
theorem handle_event_idempotent_witness :
    ({ Alarm.init false with
        arming_state := ArmingState.ARMING
        arming_mode := some ArmingMode.ARMED_AWAY } : Alarm).handle_event
      (BaseEvent.systemStatus ⟨SystemStatusEvent.EventType.ARMED_AWAY, none⟩) =
      some ({ Alarm.init false with
        arming_state := ArmingState.ARMING
        arming_mode := some ArmingMode.ARMED_AWAY }, []) :=
  handle_event_idempotent (Alarm.init false)
    (BaseEvent.systemStatus ⟨SystemStatusEvent.EventType.ARMED_AWAY, none⟩)
    ({ Alarm.init false with
        arming_state := ArmingState.ARMING
        arming_mode := some ArmingMode.ARMED_AWAY } : Alarm)
    [Notification.stateChange ArmingState.ARMING (some ArmingMode.ARMED_AWAY)]
    (by decide)
